import Mathlib

/-!
Verification of the retrieval-augmented conversation orchestration engine
(agent/api.py of the local-rag repository).

The definitions below are a shallow embedding of the Python source.  External
collaborators (the pydantic-ai agent, the Postgres helpers of db_utils.py, the
graph client) are modelled as inputs supplied through small environment
structures: each environment field records the outcome the collaborator would
have produced (a value, or the message of the exception it raised), and the
embedded functions replay the control flow of the source on those outcomes.
Failure injection fields (for example userWriteErr) model an exception raised
at the corresponding await point of the source.
-/

namespace LocalRag

/-- listStartsWith p l is true when p is a leading segment of l. -/
def listStartsWith : List Char → List Char → Bool
  | [], _ => true
  | _ :: _, [] => false
  | p :: ps, c :: cs => p == c && listStartsWith ps cs

/-- listContainsSub p l is true when p occurs contiguously inside l. -/
def listContainsSub (p : List Char) : List Char → Bool
  | [] => p.isEmpty
  | c :: cs => listStartsWith p (c :: cs) || listContainsSub p cs

/-- strContains s pat embeds the Python substring test pat in s. -/
def strContains (s pat : String) : Bool :=
  listContainsSub pat.toList s.toList

/-- takeLast n l is the Python slice l[-n:]: the last n elements of l. -/
def takeLast (n : Nat) (l : List α) : List α :=
  l.drop (l.length - n)

/-! ### Data model: messages and metadata -/

/-- Meta embeds the metadata dictionaries attached to persisted messages in
api.py; each field is one key that some call site of add_message sets. -/
structure Meta where
  userId : Option (Option String)
  toolCalls : Option Nat
  error : Option String
  streamed : Option Bool
deriving DecidableEq, Repr

/-- Metadata written by execute_agent on the success path (api.py 423-426). -/
def metaSuccess (uid : Option String) (n : Nat) : Meta := ⟨some uid, some n, none, none⟩

/-- Metadata written by execute_agent on the failure path (api.py 440). -/
def metaErr (e : String) : Meta := ⟨none, none, some e, none⟩

/-- Metadata of the user message saved by the streaming endpoints. -/
def metaUser (uid : Option String) : Meta := ⟨some uid, none, none, none⟩

/-- Metadata of the assistant message saved by the native stream (api.py 795-798). -/
def metaStreamNative (n : Nat) : Meta := ⟨none, some n, none, some true⟩

/-- Metadata of the assistant message saved by the compatibility stream (api.py 597). -/
def metaStreamCompat : Meta := ⟨none, none, none, some true⟩

/-- MessageRec is one row written through add_message. -/
structure MessageRec where
  sessionId : String
  role : String
  content : String
  meta : Meta
deriving DecidableEq, Repr

/-- StoredMsg is one message returned by get_session_messages. -/
structure StoredMsg where
  role : String
  content : String
deriving DecidableEq, Repr

/-! ### ToolCallTracker (extract_tool_calls, api.py 266-338) -/

/-- ArgsField embeds the runtime shape of a ToolCallPart args attribute:
missing or None, a JSON string together with the result of json.loads on it
(none models a JSONDecodeError), an already parsed dict, or some other type. -/
inductive ArgsField
  | absent
  | jsonStr (parsed : Option (List (String × String)))
  | dict (d : List (String × String))
  | otherType
deriving DecidableEq, Repr

/-- ToolCallPartData embeds one ToolCallPart of the agent trace.  toolName is
none when the attribute is missing; argsAsDict is none when the method is
missing, some none when calling it raises, some (some d) when it returns d;
toolCallId is the already computed id (none for a missing or falsy value). -/
structure ToolCallPartData where
  toolName : Option String
  args : ArgsField
  argsAsDict : Option (Option (List (String × String)))
  toolCallId : Option String
deriving DecidableEq, Repr

/-- MessagePart embeds one part of a trace message: either a ToolCallPart or
any other part class, which extract_tool_calls ignores. -/
inductive MessagePart
  | toolCallPart (d : ToolCallPartData)
  | otherPart
deriving DecidableEq, Repr

/-- TraceMessage embeds one message of result.all_messages(); parts is none
when the message object has no parts attribute. -/
structure TraceMessage where
  parts : Option (List MessagePart)
deriving DecidableEq, Repr

/-- ToolCall is the record produced per tool invocation (api.py 325-331). -/
structure ToolCall where
  toolName : String
  args : List (String × String)
  toolCallId : Option String
deriving DecidableEq, Repr

/-- decodeToolArgs replays the args handling of api.py 296-317: a JSON string
is parsed with json.loads falling back to the empty dict on a decode error, a
dict is taken as is, and an args_as_dict method overrides the result when it
is present and does not raise. -/
def decodeToolArgs (d : ToolCallPartData) : List (String × String) :=
  let base : List (String × String) :=
    match d.args with
    | .absent => []
    | .jsonStr parsed =>
      match parsed with
      | some m => m
      | none => []
    | .dict m => m
    | .otherType => []
  match d.argsAsDict with
  | some (some m) => m
  | _ => base

/-- mkToolCall builds the ToolCall record of api.py 325-331 for one part. -/
def mkToolCall (d : ToolCallPartData) : ToolCall :=
  ⟨d.toolName.getD "unknown", decodeToolArgs d, d.toolCallId⟩

/-- extract_tool_calls embeds api.py 266-338: walk every message, walk every
part, and record every ToolCallPart in order. -/
def extract_tool_calls (msgs : List TraceMessage) : List ToolCall :=
  (msgs.map fun m =>
    match m.parts with
    | none => []
    | some parts =>
      parts.filterMap fun p =>
        match p with
        | .toolCallPart d => some (mkToolCall d)
        | .otherPart => none).flatten

/-- toolCallPartsOf lists the ToolCallPart payloads of a trace in order. -/
def toolCallPartsOf (msgs : List TraceMessage) : List ToolCallPartData :=
  (msgs.map fun m =>
    match m.parts with
    | none => []
    | some parts =>
      parts.filterMap fun p =>
        match p with
        | .toolCallPart d => some d
        | .otherPart => none).flatten

/-! ### ConversationContextAssembler (api.py 241-263) and prompt building -/

/-- Modelled from the spec: get_session_messages lives in agent/db_utils.py,
which is not under src/.  Per spec section 4.1 the assembler contract it
serves returns an ordered sequence of messages, oldest first, truncated to
the most recent limit messages; stored is the session log, oldest first. -/
def get_session_messages (stored : List StoredMsg) (limit : Nat) : List StoredMsg :=
  takeLast limit stored

/-- get_conversation_context embeds api.py 241-263: fetch the most recent
maxMessages messages and keep only role and content. -/
def get_conversation_context (stored : List StoredMsg) (maxMessages : Nat) :
    List (String × String) :=
  (get_session_messages stored maxMessages).map fun m => (m.role, m.content)

/-- contextLines renders context[-6:] as role: content lines joined with
newlines (api.py 405-408). -/
def contextLines (context : List (String × String)) : String :=
  String.intercalate "\n" ((takeLast 6 context).map fun p => p.1 ++ ": " ++ p.2)

/-- build_full_prompt embeds api.py 403-409: the message alone when the
context is empty, otherwise the fixed header, the rendered last six context
messages, and the new question under the fixed label. -/
def build_full_prompt (context : List (String × String)) (message : String) : String :=
  if context.isEmpty then message
  else
    "Previous conversation:\n" ++ contextLines context ++
      "\n\nCurrent question: " ++ message

/-! ### Persistence (add_message, save_conversation_turn) -/

/-- WriteState threads the conversation store through one request: writes is
the list of rows committed so far and attempts counts every add_message call,
committed or failed. -/
structure WriteState where
  writes : List MessageRec
  attempts : Nat
deriving Repr

/-- WriteSched is the failure schedule of the store collaborator: the outcome
of the n-th add_message call of the request, none for success and some e when
the call raises an exception with message e. -/
def WriteSched : Type := Nat → Option String

/-- add_message embeds a call of db_utils.add_message: it either commits the
row or raises according to the schedule. -/
def add_message (sched : WriteSched) (st : WriteState) (sessionId role content : String)
    (meta : Meta) : Option String × WriteState :=
  match sched st.attempts with
  | some e => (some e, ⟨st.writes, st.attempts + 1⟩)
  | none => (none, ⟨st.writes ++ [⟨sessionId, role, content, meta⟩], st.attempts + 1⟩)

/-- save_conversation_turn embeds api.py 341-371: save the user message, then
the assistant message, with the same metadata; a failure of the first write
aborts before the second. -/
def save_conversation_turn (sched : WriteSched) (st : WriteState) (sessionId : String)
    (userMessage assistantMessage : String) (meta : Meta) : Option String × WriteState :=
  match add_message sched st sessionId "user" userMessage meta with
  | (some e, st1) => (some e, st1)
  | (none, st1) => add_message sched st1 sessionId "assistant" assistantMessage meta

/-! ### AgentRunner, non-streaming (execute_agent, api.py 374-443) -/

/-- AgentRunResult embeds the result object of rag_agent.run: the final text
in data and the trace messages consumed by extract_tool_calls. -/
structure AgentRunResult where
  data : String
  msgs : List TraceMessage
deriving Repr

/-- ExecEnv bundles the collaborator outcomes execute_agent consumes: the
session messages read for context (or the message of the exception the read
raised), the outcome of rag_agent.run, and the store failure schedule. -/
structure ExecEnv where
  stored : Except String (List StoredMsg)
  runResult : Except String AgentRunResult
  sched : WriteSched

/-- generic_error_response is the substitute answer of api.py 433. -/
def generic_error_response (e : String) : String :=
  "I encountered an error while processing your request: " ++ e

/-- ExecOut is the observable outcome of execute_agent: the returned pair, or
the message of the exception that escaped, together with the rows committed. -/
structure ExecOut where
  result : Except String (String × List ToolCall)
  writes : List MessageRec
deriving Repr

/-- execute_agent_recover embeds the except branch of api.py 431-443: build
the generic substitute answer, persist the turn with error metadata when
saving is enabled, and let a failure of that save escape. -/
def execute_agent_recover (sched : WriteSched) (message sessionId : String)
    (saveConversation : Bool) (e : String) (st : WriteState) : ExecOut :=
  let errorResponse := generic_error_response e
  if saveConversation then
    match save_conversation_turn sched st sessionId message errorResponse (metaErr e) with
    | (some e2, st2) => ⟨.error e2, st2.writes⟩
    | (none, st2) => ⟨.ok (errorResponse, []), st2.writes⟩
  else ⟨.ok (errorResponse, []), st.writes⟩

/-- execute_agent embeds api.py 374-443: read the context, build the prompt,
run the agent, extract the tool calls, persist the turn when requested, and
on any exception fall into the recovery branch. -/
def execute_agent (env : ExecEnv) (message sessionId : String) (userId : Option String)
    (saveConversation : Bool) : ExecOut :=
  match env.stored with
  | .error e => execute_agent_recover env.sched message sessionId saveConversation e ⟨[], 0⟩
  | .ok stored =>
    let context := get_conversation_context stored 10
    let _fullPrompt := build_full_prompt context message
    match env.runResult with
    | .error e => execute_agent_recover env.sched message sessionId saveConversation e ⟨[], 0⟩
    | .ok result =>
      let response := result.data
      let toolsUsed := extract_tool_calls result.msgs
      if saveConversation then
        match save_conversation_turn env.sched ⟨[], 0⟩ sessionId message response
            (metaSuccess userId toolsUsed.length) with
        | (some e, st) => execute_agent_recover env.sched message sessionId saveConversation e st
        | (none, st) => ⟨.ok (response, toolsUsed), st.writes⟩
      else ⟨.ok (response, toolsUsed), []⟩

/-! ### AgentRunner, streaming: the internal event sequence -/

/-- StreamEventIn embeds one event of a model request stream: a
PartStartEvent whose part kind is text, a PartDeltaEvent carrying a
TextPartDelta, or any other event, which the endpoints ignore. -/
inductive StreamEventIn
  | textStart (content : String)
  | textDelta (content : String)
  | otherEvent
deriving DecidableEq, Repr

/-- AgentNode embeds one node of the rag_agent.iter run: a model request
node exposing a stream of events, or any other node kind. -/
inductive AgentNode
  | modelRequest (events : List StreamEventIn)
  | otherNode
deriving DecidableEq, Repr

/-- deltaOf is the text content an event contributes, none for ignored
events (api.py 764-772). -/
def deltaOf : StreamEventIn → Option String
  | .textStart c => some c
  | .textDelta c => some c
  | .otherEvent => none

/-- nodeEvents is the event stream of a node; only model request nodes are
streamed (api.py 757-761). -/
def nodeEvents : AgentNode → List StreamEventIn
  | .modelRequest events => events
  | .otherNode => []

/-- allStreamEvents is the event sequence of the whole run in order. -/
def allStreamEvents (nodes : List AgentNode) : List StreamEventIn :=
  (nodes.map nodeEvents).flatten

/-- streamedResponse is the full_response accumulator at the end of the
streaming loop: the concatenation of every text contribution. -/
def streamedResponse (events : List StreamEventIn) : String :=
  String.join (events.filterMap deltaOf)

/-- StreamAction is one observable step of a streaming generator: an event
yielded to the wire, or a row committed to the conversation store. -/
inductive StreamAction (ε : Type)
  | emit (e : ε)
  | write (m : MessageRec)
deriving DecidableEq, Repr

/-- emittedEvents projects the wire events out of an action trace. -/
def emittedEvents (acts : List (StreamAction ε)) : List ε :=
  acts.filterMap fun a =>
    match a with
    | .emit e => some e
    | .write _ => none

/-- writesOf projects the committed rows out of an action trace. -/
def writesOf (acts : List (StreamAction ε)) : List MessageRec :=
  acts.filterMap fun a =>
    match a with
    | .emit _ => none
    | .write m => some m

/-! ### StreamTranslator, native format (generate_stream, api.py 722-809) -/

/-- NativeEvent embeds the native wire events of /chat/stream. -/
inductive NativeEvent
  | session (sessionId : String)
  | text (content : String)
  | tools (toolsUsed : List ToolCall)
  | endEvent
  | errorEvent (content : String)
deriving DecidableEq, Repr

/-- isTerminalEvent distinguishes the two terminal native events. -/
def isTerminalEvent : NativeEvent → Bool
  | .endEvent => true
  | .errorEvent _ => true
  | _ => false

/-- NativeCollab bundles the collaborator outcomes of one native streamed
run: the context read, the run nodes and final trace, and the failure
injections for the await points of the generator body (an injected some e
models that await raising an exception with message e; streamFailAt = some
(k, e) models the agent iteration raising after k events). -/
structure NativeCollab where
  stored : Except String (List StoredMsg)
  nodes : List AgentNode
  resultMsgs : List TraceMessage
  userWriteErr : Option String
  streamFailAt : Option (Nat × String)
  resultErr : Option String
  assistantWriteErr : Option String

/-- streamErrorAction is the single error event the except branch of
generate_stream yields (api.py 803-809). -/
def streamErrorAction (e : String) : StreamAction NativeEvent :=
  .emit (.errorEvent ("Stream error: " ++ e))

/-- nativeTextEvents is the sequence of text events yielded for a run of
stream events; every text contribution is yielded, empty or not (api.py
764-772). -/
def nativeTextEvents (events : List StreamEventIn) : List (StreamAction NativeEvent) :=
  events.filterMap fun e => (deltaOf e).map fun c => StreamAction.emit (NativeEvent.text c)

/-- generate_stream embeds the generator of api.py 722-809 as the action
trace of one run: session event, user write, text events, optional tools
event, assistant write and end event, with any exception of the body
replaced by the single terminal error event of the except branch. -/
def generate_stream (env : NativeCollab) (sessionId message : String)
    (userId : Option String) : List (StreamAction NativeEvent) :=
  StreamAction.emit (NativeEvent.session sessionId) ::
    (match env.stored with
     | .error e => [streamErrorAction e]
     | .ok stored =>
       let context := get_conversation_context stored 10
       let _fullPrompt := build_full_prompt context message
       match env.userWriteErr with
       | some e => [streamErrorAction e]
       | none =>
         StreamAction.write ⟨sessionId, "user", message, metaUser userId⟩ ::
           (let events := allStreamEvents env.nodes
            match env.streamFailAt with
            | some (k, e) => nativeTextEvents (events.take k) ++ [streamErrorAction e]
            | none =>
              nativeTextEvents events ++
                (let fullResponse := streamedResponse events
                 match env.resultErr with
                 | some e => [streamErrorAction e]
                 | none =>
                   let toolsUsed := extract_tool_calls env.resultMsgs
                   (if toolsUsed.isEmpty then []
                    else [StreamAction.emit (NativeEvent.tools toolsUsed)]) ++
                     match env.assistantWriteErr with
                     | some e => [streamErrorAction e]
                     | none =>
                       [StreamAction.write
                         ⟨sessionId, "assistant", fullResponse,
                           metaStreamNative toolsUsed.length⟩,
                        StreamAction.emit NativeEvent.endEvent])))

/-! ### Compatibility endpoint (api.py 145-214 and 466-655) -/

/-- OpenAIMessageIn is one message of an OpenAI format chat request. -/
structure OpenAIMessageIn where
  role : String
  content : String
deriving DecidableEq, Repr

/-- OpenAIChatRequestIn embeds the fields of OpenAIChatRequest that the
endpoint reads. -/
structure OpenAIChatRequestIn where
  model : String
  messages : List OpenAIMessageIn
  user : Option String
  stream : Bool
deriving DecidableEq, Repr

/-- convert_openai_to_internal embeds api.py 145-163: take the content of the
last user role message, raising an HTTP 400 exception when there is none. -/
def convert_openai_to_internal (req : OpenAIChatRequestIn) :
    Except (Nat × String) (String × Option String) :=
  let userMessages := req.messages.filter fun m => m.role == "user"
  match userMessages.getLast? with
  | none => .error (400, "No user message found in request")
  | some m => .ok (m.content, req.user)

/-- http_exception_text is str(e) for a raised HTTPException: the status code
followed by the detail, which is what the substring checks of the outer
except branch inspect. -/
def http_exception_text (status : Nat) (detail : String) : String :=
  toString status ++ ": " ++ detail

/-- word_count embeds len(content.split()): whitespace separated words. -/
def word_count (s : String) : Nat :=
  ((s.split Char.isWhitespace).filter fun w => w ≠ "").length

/-- estimated_completion_tokens embeds int(len(content.split()) * 1.3) of
api.py 200-203, computed in exact arithmetic. -/
def estimated_completion_tokens (content : String) : Nat :=
  13 * word_count content / 10

/-- OpenAIUsageOut is the token usage block of a non-streaming response. -/
structure OpenAIUsageOut where
  promptTokens : Nat
  completionTokens : Nat
  totalTokens : Nat
deriving DecidableEq, Repr

/-- OpenAIChoiceOut is the single choice of a response: a full assistant
message for non-streaming responses, a delta for streaming chunks. -/
inductive OpenAIChoiceOut
  | messageChoice (role content : String) (finishReason : Option String)
  | deltaChoice (content : Option String) (finishReason : Option String)
deriving DecidableEq, Repr

/-- OpenAIResponseOut is the OpenAI compatible response body. -/
structure OpenAIResponseOut where
  id : String
  objectType : String
  created : Nat
  model : String
  choices : List OpenAIChoiceOut
  usage : Option OpenAIUsageOut
deriving DecidableEq, Repr

/-- create_openai_response embeds api.py 166-214; respId and timestamp stand
for the uuid and clock reads; the sessionId argument is accepted and, as in
the source, never used in the body. -/
def create_openai_response (respId : String) (timestamp : Nat) (content : String)
    (_sessionId : String) (model : String) (isStream : Bool) : OpenAIResponseOut :=
  if isStream then
    ⟨respId, "chat.completion.chunk", timestamp, model,
      [.deltaChoice (some content) none], none⟩
  else
    ⟨respId, "chat.completion", timestamp, model,
      [.messageChoice "assistant" content (some "stop")],
      some ⟨50, estimated_completion_tokens content,
        estimated_completion_tokens content + 50⟩⟩

/-- ChatRequestIn embeds the internal ChatRequest fields the session helpers
read. -/
structure ChatRequestIn where
  message : String
  sessionId : Option String
  userId : Option String
deriving DecidableEq, Repr

/-- SessionEnv bundles the session collaborators: which ids get_session
resolves, the id create_session would mint, and an injected create_session
failure. -/
structure SessionEnv where
  existing : List String
  freshId : String
  createErr : Option String

/-- get_or_create_session embeds api.py 218-238: reuse a supplied id that
resolves, otherwise create a new session; the Bool records whether a new
session was created. -/
def get_or_create_session (env : SessionEnv) (req : ChatRequestIn) :
    Except String (String × Bool) :=
  match req.sessionId with
  | some sid =>
    if env.existing.contains sid then .ok (sid, false)
    else
      match env.createErr with
      | some e => .error e
      | none => .ok (env.freshId, true)
  | none =>
    match env.createErr with
    | some e => .error e
    | none => .ok (env.freshId, true)

/-- CompatEvent embeds the wire records of the compatibility stream: a chunk
object or the literal DONE sentinel. -/
inductive CompatEvent
  | chunk (id : String) (created : Nat) (model : String) (content : Option String)
      (finishReason : Option String)
  | doneSentinel
deriving DecidableEq, Repr

/-- CompatCollab bundles the collaborator outcomes of one compatibility
streamed run; errRespId and errTimestamp are the fresh uuid and clock read of
the except branch. -/
structure CompatCollab where
  respId : String
  timestamp : Nat
  errRespId : String
  errTimestamp : Nat
  stored : Except String (List StoredMsg)
  nodes : List AgentNode
  userWriteErr : Option String
  streamFailAt : Option (Nat × String)
  assistantWriteErr : Option String

/-- compatErrorActions is the error chunk plus DONE sentinel of the except
branch of generate_openai_stream (api.py 616-630). -/
def compatErrorActions (env : CompatCollab) (model e : String) :
    List (StreamAction CompatEvent) :=
  [.emit (.chunk env.errRespId env.errTimestamp model (some ("Error: " ++ e)) (some "stop")),
   .emit .doneSentinel]

/-- compatTextChunks yields one chunk per nonempty text contribution (api.py
569-590); empty contributions are skipped by the if content guard. -/
def compatTextChunks (env : CompatCollab) (model : String)
    (events : List StreamEventIn) : List (StreamAction CompatEvent) :=
  events.filterMap fun e =>
    (deltaOf e).bind fun c =>
      if c = "" then none
      else some (.emit (.chunk env.respId env.timestamp model (some c) none))

/-- generate_openai_stream embeds the generator of api.py 524-630 as an
action trace: user write, text chunks, assistant write, final chunk with a
finish reason, DONE sentinel; any exception of the body is replaced by the
error chunk plus DONE of the except branch. -/
def generate_openai_stream (env : CompatCollab) (sessionId userMessage : String)
    (userId : Option String) (model : String) : List (StreamAction CompatEvent) :=
  match env.stored with
  | .error e => compatErrorActions env model e
  | .ok stored =>
    let context := get_conversation_context stored 10
    let _fullPrompt := build_full_prompt context userMessage
    match env.userWriteErr with
    | some e => compatErrorActions env model e
    | none =>
      StreamAction.write ⟨sessionId, "user", userMessage, metaUser userId⟩ ::
        (let events := allStreamEvents env.nodes
         match env.streamFailAt with
         | some (k, e) => compatTextChunks env model (events.take k) ++ compatErrorActions env model e
         | none =>
           compatTextChunks env model events ++
             (let fullResponse := streamedResponse events
              match env.assistantWriteErr with
              | some e => compatErrorActions env model e
              | none =>
                [StreamAction.write ⟨sessionId, "assistant", fullResponse, metaStreamCompat⟩,
                 .emit (.chunk env.respId env.timestamp model none (some "stop")),
                 .emit .doneSentinel]))

/-- cooldown_message is the fixed quota apology of api.py 649. -/
def cooldown_message : String :=
  "I\x27m currently experiencing high demand and cannot process your request. Please try again in a few minutes, or contact the administrator about API quota limits."

/-- ChatResult is the observable HTTP outcome of the compatibility endpoint:
a status 200 completion body, a status 200 streaming response, or a raised
HTTPException which FastAPI renders as a JSON body with a detail field. -/
inductive ChatResult
  | completion (body : OpenAIResponseOut)
  | streamResponse (actions : List (StreamAction CompatEvent))
  | httpError (status : Nat) (detail : String)
deriving DecidableEq, Repr

/-- ChatOut is the outcome of one chat_completions call: the HTTP result, the
session the request ran under (none when it never reached session
resolution), whether that session was newly created, and the rows the
non-streaming path committed. -/
structure ChatOut where
  result : ChatResult
  sessionUsed : Option String
  sessionCreated : Bool
  writes : List MessageRec
deriving DecidableEq, Repr

/-- ChatEnv bundles every collaborator of the compatibility endpoint. -/
structure ChatEnv where
  session : SessionEnv
  exec : ExecEnv
  compat : CompatCollab
  respId : String
  timestamp : Nat

/-- chat_completions_recover embeds the outer except branch of api.py
642-655: quota shaped exception texts get a status 200 cooldown body, every
other exception is re-raised as an HTTP 500. -/
def chat_completions_recover (env : ChatEnv) (model : String)
    (sessionVar : Option String) (created : Bool) (e : String) : ChatOut :=
  if strContains e "insufficient_quota" || strContains e "429" then
    ⟨.completion (create_openai_response env.respId env.timestamp cooldown_message
        (sessionVar.getD "error-session") model false),
      sessionVar, created, []⟩
  else ⟨.httpError 500 e, sessionVar, created, []⟩

/-- chat_completions embeds api.py 466-655: convert the request, always build
the internal request with a null session id, resolve the session, then either
stream or run the agent synchronously; the inner except around execute_agent
substitutes the technical difficulties text, the outer except classifies
whatever escapes. -/
def chat_completions (env : ChatEnv) (req : OpenAIChatRequestIn) : ChatOut :=
  match convert_openai_to_internal req with
  | .error (status, detail) =>
    chat_completions_recover env req.model none false (http_exception_text status detail)
  | .ok (userMessage, userId) =>
    let internalRequest : ChatRequestIn := ⟨userMessage, none, userId⟩
    match get_or_create_session env.session internalRequest with
    | .error e => chat_completions_recover env req.model none false e
    | .ok (sessionId, created) =>
      if req.stream then
        ⟨.streamResponse (generate_openai_stream env.compat sessionId userMessage userId req.model),
          some sessionId, created, []⟩
      else
        let eo := execute_agent env.exec userMessage sessionId userId true
        match eo.result with
        | .ok (response, _toolsUsed) =>
          ⟨.completion (create_openai_response env.respId env.timestamp response
              sessionId req.model false),
            some sessionId, created, eo.writes⟩
        | .error e =>
          ⟨.completion (create_openai_response env.respId env.timestamp
              ("I\x27m experiencing technical difficulties: " ++ e) sessionId req.model false),
            some sessionId, created, eo.writes⟩

/-! ### RetrievalFuser -/

/-- HSource is the retrieval source of a hit. -/
inductive HSource
  | vector
  | graph
deriving DecidableEq, Repr

/-- RetrievalHit is one retrieval hit; scores are modelled in exact
arithmetic. -/
structure RetrievalHit where
  source : HSource
  identifier : String
  score : ℚ
  snippet : String
deriving DecidableEq, Repr

/-- Modelled from the spec: the fusion code (agent/tools.py hybrid search) is
not under src/.  Per spec section 4.2 step 1, scores of one source are min
max normalized to the unit interval, and a source with a single hit is fixed
at 1; a source whose hits all share one score is likewise fixed at 1. -/
def normalize_scores (hits : List RetrievalHit) : List RetrievalHit :=
  match hits.map (fun h => h.score) with
  | [] => []
  | s :: ss =>
    let mx := ss.foldl max s
    let mn := ss.foldl min s
    if mx = mn then hits.map fun h => { h with score := 1 }
    else hits.map fun h => { h with score := (h.score - mn) / (mx - mn) }

/-- prioOf is the deterministic source priority of spec section 4.2 step 4:
graph before vector. -/
def prioOf : HSource → Nat
  | .graph => 0
  | .vector => 1

/-- dedupKey is the deduplication key of a fused entry: the identifier
(provenance key) of spec section 4.2 step 3. -/
def dedupKey (h : RetrievalHit) : String := h.identifier

/-- fuseLE is the ranking order of spec section 4.2 step 4: descending by
combined score, ties broken by source priority then identifier lexical
order. -/
def fuseLE (a b : RetrievalHit) : Prop :=
  b.score < a.score ∨
    (a.score = b.score ∧
      (prioOf a.source < prioOf b.source ∨
        (prioOf a.source = prioOf b.source ∧ a.identifier ≤ b.identifier)))

instance : DecidableRel fuseLE := fun a b => by
  unfold fuseLE
  exact inferInstance

/-- findHit is the hit of a source carrying an identifier, if any. -/
def findHit (idt : String) (hits : List RetrievalHit) : Option RetrievalHit :=
  hits.find? fun h => h.identifier == idt

/-- Modelled from the spec: fusion steps 2 and 3 of section 4.2.  An
identifier present in both sources gets the weighted combination of both
normalized scores, graph provenance, and the vector snippet (passage text);
an identifier present in one source keeps that source normalized score. -/
def mergedEntry (wv wg : ℚ) (idt : String) (vn gn : List RetrievalHit) : RetrievalHit :=
  match findHit idt vn, findHit idt gn with
  | some hv, some hg => ⟨.graph, idt, wv * hv.score + wg * hg.score, hv.snippet⟩
  | some hv, none => ⟨.vector, idt, hv.score, hv.snippet⟩
  | none, some hg => ⟨.graph, idt, hg.score, hg.snippet⟩
  | none, none => ⟨.vector, idt, 0, ""⟩

/-- Modelled from the spec: RetrievalFuser of section 4.2 (its code is not
under src/).  Normalize each source, form one entry per distinct identifier,
sort by the ranking order, and truncate to the limit. -/
def retrieval_fuse (wv wg : ℚ) (limit : Nat) (vhits ghits : List RetrievalHit) :
    List RetrievalHit :=
  let vn := normalize_scores vhits
  let gn := normalize_scores ghits
  let ids := ((vn.map fun h => h.identifier) ++ (gn.map fun h => h.identifier)).dedup
  let entries := ids.map fun idt => mergedEntry wv wg idt vn gn
  (List.insertionSort fuseLE entries).take limit

instance : IsTotal RetrievalHit fuseLE := by
  constructor
  intro a b
  rcases lt_trichotomy a.score b.score with h | h | h
  · exact Or.inr (Or.inl h)
  · rcases Nat.lt_trichotomy (prioOf a.source) (prioOf b.source) with h2 | h2 | h2
    · exact Or.inl (Or.inr ⟨h, Or.inl h2⟩)
    · rcases le_total a.identifier b.identifier with h3 | h3
      · exact Or.inl (Or.inr ⟨h, Or.inr ⟨h2, h3⟩⟩)
      · exact Or.inr (Or.inr ⟨h.symm, Or.inr ⟨h2.symm, h3⟩⟩)
    · exact Or.inr (Or.inr ⟨h.symm, Or.inl h2⟩)
  · exact Or.inl (Or.inl h)

instance : IsTrans RetrievalHit fuseLE := by
  constructor
  intro a b c hab hbc
  rcases hab with hab | ⟨habs, hab2⟩
  · rcases hbc with hbc | ⟨hbcs, _⟩
    · exact Or.inl (hbc.trans hab)
    · exact Or.inl (hbcs ▸ hab)
  · rcases hbc with hbc | ⟨hbcs, hbc2⟩
    · exact Or.inl (habs ▸ hbc)
    · refine Or.inr ⟨habs.trans hbcs, ?_⟩
      rcases hab2 with hab2 | ⟨habp, habi⟩
      · rcases hbc2 with hbc2 | ⟨hbcp, _⟩
        · exact Or.inl (hab2.trans hbc2)
        · exact Or.inl (hbcp ▸ hab2)
      · rcases hbc2 with hbc2 | ⟨hbcp, hbci⟩
        · exact Or.inl (habp ▸ hbc2)
        · exact Or.inr ⟨habp.trans hbcp, habi.trans hbci⟩

/-! ### Spec side definitions used for comparison -/

/-- textContentOf projects the content of a native text event. -/
def textContentOf : NativeEvent → Option String
  | .text c => some c
  | _ => none

/-- Modelled from the spec: the working prompt as section 4.4 words it, with
the assembler output rendered in full: the fixed header, every message of the
assembler output as a role: content line, and the new question under the
fixed label. -/
def spec_working_prompt (context : List (String × String)) (message : String) : String :=
  "Previous conversation:\n" ++
    String.intercalate "\n" (context.map fun p => p.1 ++ ": " ++ p.2) ++
    "\n\nCurrent question: " ++ message

/-- most_recent n l is the suffix of the n most recent elements, oldest
first, written through reversal as the spec phrases recency. -/
def most_recent (n : Nat) (l : List α) : List α :=
  (l.reverse.take n).reverse

/-- spec_working_prompt_recent is the amended spec prompt: the fixed header,
the most recent n messages of the assembler output as role: content lines,
and the new question under the fixed label. -/
def spec_working_prompt_recent (n : Nat) (context : List (String × String))
    (message : String) : String :=
  "Previous conversation:\n" ++
    String.intercalate "\n" ((most_recent n context).map fun p => p.1 ++ ": " ++ p.2) ++
    "\n\nCurrent question: " ++ message

/-! ### Concrete inputs for counterexamples and witnesses -/

/-- sampleCompat is a concrete compatibility stream collaborator bundle. -/
def sampleCompat : CompatCollab :=
  ⟨"chatcmpl-aaaa1111", 1700000000, "chatcmpl-bbbb2222", 1700000001, .ok [], [], none, none, none⟩

/-- c3req is a compatibility request whose message list has no user role
message. -/
def c3req : OpenAIChatRequestIn :=
  ⟨"gpt-4o-mini", [⟨"system", "You are a helpful assistant."⟩], none, false⟩

/-- c3env is a concrete collaborator environment for the C3 scenario. -/
def c3env : ChatEnv :=
  ⟨⟨[], "session-fresh", none⟩, ⟨.ok [], .ok ⟨"ok", []⟩, fun _ => none⟩,
    sampleCompat, "chatcmpl-cccc3333", 1700000002⟩

/-- quotaError is a quota shaped exception text from the inference call. -/
def quotaError : String :=
  "Error code: 429 - insufficient_quota: You exceeded your current quota"

/-- c4req is a well formed non-streaming compatibility request. -/
def c4req : OpenAIChatRequestIn :=
  ⟨"gpt-4o-mini", [⟨"user", "What does Acme do?"⟩], none, false⟩

/-- c4env makes the reasoning call fail with the quota error while every
store write succeeds. -/
def c4env : ChatEnv :=
  ⟨⟨[], "session-fresh", none⟩, ⟨.ok [], .error quotaError, fun _ => none⟩,
    sampleCompat, "chatcmpl-cccc3333", 1700000002⟩

/-- c5sched fails the first store write of the request and lets every later
write succeed. -/
def c5sched : WriteSched :=
  fun n => if n = 0 then some "database connection lost" else none

/-- c6partOk is a tool call part whose argument string decodes. -/
def c6partOk : ToolCallPartData :=
  ⟨some "vector_search", .jsonStr (some [("query", "acme")]), none, some "call-1"⟩

/-- c6partFail is a tool call part whose argument string raises a decode
error under json.loads. -/
def c6partFail : ToolCallPartData :=
  ⟨some "graph_search", .jsonStr none, none, some "call-2"⟩

/-- c6partEmpty is a tool call part whose argument string decodes to the
empty mapping. -/
def c6partEmpty : ToolCallPartData :=
  ⟨some "graph_search", .jsonStr (some []), none, some "call-2"⟩

/-- c6traceFail is a run trace with two tool invocations whose second has
undecodable arguments. -/
def c6traceFail : List TraceMessage :=
  [⟨some [.toolCallPart c6partOk, .toolCallPart c6partFail]⟩]

/-- c6traceEmpty is the same trace with the second invocation carrying a
genuinely empty argument mapping. -/
def c6traceEmpty : List TraceMessage :=
  [⟨some [.toolCallPart c6partOk, .toolCallPart c6partEmpty]⟩]

/-- c7context is an assembler output of seven prior messages. -/
def c7context : List (String × String) :=
  [("user", "q1"), ("assistant", "a1"), ("user", "q2"), ("assistant", "a2"),
   ("user", "q3"), ("assistant", "a3"), ("user", "q4")]

/-- c7stored is a session log whose assembled context has seven messages. -/
def c7stored : List StoredMsg :=
  [⟨"user", "q1"⟩, ⟨"assistant", "a1"⟩, ⟨"user", "q2"⟩, ⟨"assistant", "a2"⟩,
   ⟨"user", "q3"⟩, ⟨"assistant", "a3"⟩, ⟨"user", "q4"⟩]

/-- c10req is a compatibility request that supplies conversation history and
a user identifier. -/
def c10req : OpenAIChatRequestIn :=
  ⟨"gpt-4o-mini", [⟨"user", "Hello"⟩, ⟨"assistant", "Hi there"⟩,
    ⟨"user", "Continue our chat"⟩], some "user-7", true⟩

/-- c10env resolves an existing session id yet the endpoint never consults
it. -/
def c10env : ChatEnv :=
  ⟨⟨["session-old"], "session-new", none⟩, ⟨.ok [], .ok ⟨"ok", []⟩, fun _ => none⟩,
    sampleCompat, "chatcmpl-dddd4444", 1700000003⟩

/-! ### Helper lemmas about stream action traces -/

theorem emittedEvents_nil : emittedEvents ([] : List (StreamAction ε)) = [] := rfl

theorem writesOf_nil : writesOf ([] : List (StreamAction ε)) = [] := rfl

theorem emittedEvents_append (l1 l2 : List (StreamAction ε)) :
    emittedEvents (l1 ++ l2) = emittedEvents l1 ++ emittedEvents l2 := by
  simp [emittedEvents]

theorem writesOf_append (l1 l2 : List (StreamAction ε)) :
    writesOf (l1 ++ l2) = writesOf l1 ++ writesOf l2 := by
  simp [writesOf]

theorem emittedEvents_cons_emit (e : ε) (l : List (StreamAction ε)) :
    emittedEvents (StreamAction.emit e :: l) = e :: emittedEvents l := by
  simp [emittedEvents, List.filterMap_cons]

theorem emittedEvents_cons_write (m : MessageRec) (l : List (StreamAction ε)) :
    emittedEvents (StreamAction.write m :: l) = emittedEvents l := by
  simp [emittedEvents, List.filterMap_cons]

theorem writesOf_cons_emit (e : ε) (l : List (StreamAction ε)) :
    writesOf (StreamAction.emit e :: l) = writesOf l := by
  simp [writesOf, List.filterMap_cons]

theorem writesOf_cons_write (m : MessageRec) (l : List (StreamAction ε)) :
    writesOf (StreamAction.write m :: l) = m :: writesOf l := by
  simp [writesOf, List.filterMap_cons]

theorem emitted_nativeTextEvents (events : List StreamEventIn) :
    emittedEvents (nativeTextEvents events) =
      (events.filterMap deltaOf).map NativeEvent.text := by
  unfold emittedEvents nativeTextEvents
  rw [List.filterMap_filterMap, List.map_filterMap]
  congr 1
  funext e
  cases e <;> rfl

theorem writesOf_nativeTextEvents (events : List StreamEventIn) :
    writesOf (nativeTextEvents events) = [] := by
  unfold writesOf nativeTextEvents
  rw [List.filterMap_filterMap]
  induction events with
  | nil => rfl
  | cons a t ih =>
    cases a <;> rw [List.filterMap_cons] <;> exact ih

/-- nonterminalNormalForm: a session event followed by text events and tools
events contains no terminal event. -/
theorem nonterminalNormalForm (sid : String) (cs : List String) (tls : List (List ToolCall)) :
    ∀ e ∈ NativeEvent.session sid :: (cs.map NativeEvent.text ++ tls.map NativeEvent.tools),
      isTerminalEvent e = false := by
  intro e he
  rcases List.mem_cons.mp he with h | h
  · subst h; rfl
  · rcases List.mem_append.mp h with h | h
    · obtain ⟨c, _, hc⟩ := List.mem_map.mp h
      subst hc; rfl
    · obtain ⟨t, _, ht⟩ := List.mem_map.mp h
      subst ht; rfl

/-- generate_stream_shape: every native streamed run is a prefix of
non-terminal actions followed by exactly one emitted terminal event. -/
theorem generate_stream_shape (env : NativeCollab) (sessionId message : String)
    (userId : Option String) :
    ∃ pre term, generate_stream env sessionId message userId = pre ++ [StreamAction.emit term] ∧
      isTerminalEvent term = true ∧
      ∀ e, e ∈ emittedEvents pre → isTerminalEvent e = false := by
  unfold generate_stream
  cases hst : env.stored with
  | error e =>
    refine ⟨[.emit (.session sessionId)], .errorEvent ("Stream error: " ++ e), rfl, rfl, ?_⟩
    have h := nonterminalNormalForm sessionId [] ([] : List (List ToolCall))
    simpa [emittedEvents_cons_emit, emittedEvents_nil] using h
  | ok stored =>
    cases huw : env.userWriteErr with
    | some e =>
      refine ⟨[.emit (.session sessionId)], .errorEvent ("Stream error: " ++ e), rfl, rfl, ?_⟩
      have h := nonterminalNormalForm sessionId [] ([] : List (List ToolCall))
      simpa [emittedEvents_cons_emit, emittedEvents_nil] using h
    | none =>
      cases hsf : env.streamFailAt with
      | some ke =>
        obtain ⟨k, e⟩ := ke
        refine ⟨.emit (.session sessionId) ::
          .write ⟨sessionId, "user", message, metaUser userId⟩ ::
          nativeTextEvents ((allStreamEvents env.nodes).take k),
          .errorEvent ("Stream error: " ++ e), by simp [streamErrorAction], rfl, ?_⟩
        have h := nonterminalNormalForm sessionId
          (((allStreamEvents env.nodes).take k).filterMap deltaOf) ([] : List (List ToolCall))
        simpa [emittedEvents_cons_emit, emittedEvents_cons_write,
          emitted_nativeTextEvents] using h
      | none =>
        cases hre : env.resultErr with
        | some e =>
          refine ⟨.emit (.session sessionId) ::
            .write ⟨sessionId, "user", message, metaUser userId⟩ ::
            nativeTextEvents (allStreamEvents env.nodes),
            .errorEvent ("Stream error: " ++ e), by simp [streamErrorAction], rfl, ?_⟩
          have h := nonterminalNormalForm sessionId
            ((allStreamEvents env.nodes).filterMap deltaOf) ([] : List (List ToolCall))
          simpa [emittedEvents_cons_emit, emittedEvents_cons_write,
            emitted_nativeTextEvents] using h
        | none =>
          cases haw : env.assistantWriteErr with
          | some e =>
            by_cases htools : (extract_tool_calls env.resultMsgs).isEmpty
            · refine ⟨.emit (.session sessionId) ::
                .write ⟨sessionId, "user", message, metaUser userId⟩ ::
                nativeTextEvents (allStreamEvents env.nodes),
                .errorEvent ("Stream error: " ++ e), by simp [streamErrorAction, htools], rfl, ?_⟩
              have h := nonterminalNormalForm sessionId
                ((allStreamEvents env.nodes).filterMap deltaOf) ([] : List (List ToolCall))
              simpa [emittedEvents_cons_emit, emittedEvents_cons_write,
                emitted_nativeTextEvents] using h
            · refine ⟨.emit (.session sessionId) ::
                .write ⟨sessionId, "user", message, metaUser userId⟩ ::
                (nativeTextEvents (allStreamEvents env.nodes) ++
                  [.emit (.tools (extract_tool_calls env.resultMsgs))]),
                .errorEvent ("Stream error: " ++ e), by simp [streamErrorAction, htools], rfl, ?_⟩
              have h := nonterminalNormalForm sessionId
                ((allStreamEvents env.nodes).filterMap deltaOf)
                [extract_tool_calls env.resultMsgs]
              simpa [emittedEvents_cons_emit, emittedEvents_cons_write,
                emittedEvents_append, emitted_nativeTextEvents, emittedEvents_nil] using h
          | none =>
            by_cases htools : (extract_tool_calls env.resultMsgs).isEmpty
            · refine ⟨.emit (.session sessionId) ::
                .write ⟨sessionId, "user", message, metaUser userId⟩ ::
                (nativeTextEvents (allStreamEvents env.nodes) ++
                  [.write ⟨sessionId, "assistant",
                    streamedResponse (allStreamEvents env.nodes),
                    metaStreamNative (extract_tool_calls env.resultMsgs).length⟩]),
                .endEvent, by simp [htools], rfl, ?_⟩
              have h := nonterminalNormalForm sessionId
                ((allStreamEvents env.nodes).filterMap deltaOf) ([] : List (List ToolCall))
              simpa [emittedEvents_cons_emit, emittedEvents_cons_write,
                emittedEvents_append, emitted_nativeTextEvents, emittedEvents_nil] using h
            · refine ⟨.emit (.session sessionId) ::
                .write ⟨sessionId, "user", message, metaUser userId⟩ ::
                (nativeTextEvents (allStreamEvents env.nodes) ++
                  ([.emit (.tools (extract_tool_calls env.resultMsgs))] ++
                   [.write ⟨sessionId, "assistant",
                      streamedResponse (allStreamEvents env.nodes),
                      metaStreamNative (extract_tool_calls env.resultMsgs).length⟩])),
                .endEvent, by simp [htools], rfl, ?_⟩
              have h := nonterminalNormalForm sessionId
                ((allStreamEvents env.nodes).filterMap deltaOf)
                [extract_tool_calls env.resultMsgs]
              simpa [emittedEvents_cons_emit, emittedEvents_cons_write,
                emittedEvents_append, emitted_nativeTextEvents, emittedEvents_nil] using h

/-- C1: for every streamed run of the native format endpoint, exactly one
terminal event (end on success, error on failure) is emitted, and it is the
last event of the stream: no event of any type is emitted after it. -/
theorem c1_native_stream_exactly_one_terminal (env : NativeCollab)
    (sessionId message : String) (userId : Option String) :
    ((emittedEvents (generate_stream env sessionId message userId)).filter
        isTerminalEvent).length = 1 ∧
    ∃ e, (emittedEvents (generate_stream env sessionId message userId)).getLast? = some e ∧
      isTerminalEvent e = true := by
  obtain ⟨pre, term, heq, hterm, hpre⟩ := generate_stream_shape env sessionId message userId
  rw [heq, emittedEvents_append]
  have hemit : emittedEvents [StreamAction.emit term] = [term] := rfl
  rw [hemit]
  have hnil : (emittedEvents pre).filter isTerminalEvent = [] := by
    rw [List.filter_eq_nil_iff]
    intro a ha
    simp [hpre a ha]
  constructor
  · rw [List.filter_append, hnil]
    simp [hterm]
  · exact ⟨term, List.getLast?_concat _, hterm⟩

/-- C2: for every successful run with persistence enabled, in both
non-streaming and streaming modes, exactly two messages are written to the
conversation store, the user message first and the assistant message second,
and both writes complete before the response is returned (the writes are part
of the returned outcome) respectively before the end event is emitted (both
writes lie in the trace prefix preceding the terminal end event). -/
theorem c2_success_persists_two_messages
    (sessionId message : String) (userId : Option String) (stored : List StoredMsg)
    (r : AgentRunResult) (nodes : List AgentNode) (resultMsgs : List TraceMessage) :
    ((execute_agent ⟨.ok stored, .ok r, fun _ => none⟩ message sessionId userId true).result =
        .ok (r.data, extract_tool_calls r.msgs) ∧
      (execute_agent ⟨.ok stored, .ok r, fun _ => none⟩ message sessionId userId true).writes =
        [⟨sessionId, "user", message, metaSuccess userId (extract_tool_calls r.msgs).length⟩,
         ⟨sessionId, "assistant", r.data,
           metaSuccess userId (extract_tool_calls r.msgs).length⟩]) ∧
    ∃ pre,
      generate_stream ⟨.ok stored, nodes, resultMsgs, none, none, none, none⟩
          sessionId message userId = pre ++ [StreamAction.emit NativeEvent.endEvent] ∧
      writesOf pre =
        [⟨sessionId, "user", message, metaUser userId⟩,
         ⟨sessionId, "assistant", streamedResponse (allStreamEvents nodes),
           metaStreamNative (extract_tool_calls resultMsgs).length⟩] := by
  refine ⟨⟨rfl, rfl⟩, ?_⟩
  by_cases htools : (extract_tool_calls resultMsgs).isEmpty
  · refine ⟨.emit (.session sessionId) ::
      .write ⟨sessionId, "user", message, metaUser userId⟩ ::
      (nativeTextEvents (allStreamEvents nodes) ++
        [.write ⟨sessionId, "assistant", streamedResponse (allStreamEvents nodes),
          metaStreamNative (extract_tool_calls resultMsgs).length⟩]), ?_, ?_⟩
    · simp [generate_stream, htools]
    · simp [writesOf_cons_emit, writesOf_cons_write, writesOf_append,
        writesOf_nativeTextEvents, writesOf_nil]
  · refine ⟨.emit (.session sessionId) ::
      .write ⟨sessionId, "user", message, metaUser userId⟩ ::
      (nativeTextEvents (allStreamEvents nodes) ++
        (.emit (.tools (extract_tool_calls resultMsgs)) ::
          [.write ⟨sessionId, "assistant", streamedResponse (allStreamEvents nodes),
            metaStreamNative (extract_tool_calls resultMsgs).length⟩])), ?_, ?_⟩
    · simp [generate_stream, htools]
    · simp [writesOf_cons_emit, writesOf_cons_write, writesOf_append,
        writesOf_nativeTextEvents, writesOf_nil]

/-- textConcat_nativeTextEvents: the text contents emitted for a run of
stream events are exactly its delta contributions. -/
theorem textConcat_nativeTextEvents (events : List StreamEventIn) :
    (emittedEvents (nativeTextEvents events)).filterMap textContentOf =
      events.filterMap deltaOf := by
  rw [emitted_nativeTextEvents, List.filterMap_map]
  have h : (textContentOf ∘ NativeEvent.text) = some := by
    funext c
    rfl
  rw [h, List.filterMap_some]

/-- C8: given a deterministic reasoning collaborator stub (a stub whose final
data equals the concatenation of the text it streams), the concatenation of
all text delta contents emitted during a streamed run equals the content
field of the equivalent non-streaming response for the same input. -/
theorem c8_stream_concat_matches_nonstream
    (sessionId message : String) (userId : Option String) (stored : List StoredMsg)
    (nodes : List AgentNode) (resultMsgs : List TraceMessage) :
    (execute_agent
        ⟨.ok stored, .ok ⟨streamedResponse (allStreamEvents nodes), resultMsgs⟩, fun _ => none⟩
        message sessionId userId true).result =
      .ok (String.join ((emittedEvents (generate_stream
            ⟨.ok stored, nodes, resultMsgs, none, none, none, none⟩
            sessionId message userId)).filterMap textContentOf),
        extract_tool_calls resultMsgs) := by
  have hstream : (emittedEvents (generate_stream
      ⟨.ok stored, nodes, resultMsgs, none, none, none, none⟩
      sessionId message userId)).filterMap textContentOf =
      (allStreamEvents nodes).filterMap deltaOf := by
    by_cases htools : (extract_tool_calls resultMsgs).isEmpty <;>
      simp [generate_stream, htools, emittedEvents_cons_emit, emittedEvents_cons_write,
        emittedEvents_append, List.filterMap_append, textConcat_nativeTextEvents,
        emittedEvents_nil, List.filterMap_cons, textContentOf]
  rw [hstream]
  rfl

/-- dedupKey_mergedEntry: every fused entry keeps the identifier it was built
for. -/
theorem dedupKey_mergedEntry (wv wg : ℚ) (idt : String) (vn gn : List RetrievalHit) :
    dedupKey (mergedEntry wv wg idt vn gn) = idt := by
  cases h1 : findHit idt vn <;> cases h2 : findHit idt gn <;>
    simp [mergedEntry, dedupKey, h1, h2]

/-- C9: for all fusion inputs, the RetrievalFuser output contains no two
entries with the same dedup key and is sorted by non-increasing combined
score, with ties broken deterministically by source priority (graph before
vector) and then by identifier lexical order. -/
theorem c9_fused_nodup_sorted (wv wg : ℚ) (limit : Nat) (vhits ghits : List RetrievalHit) :
    ((retrieval_fuse wv wg limit vhits ghits).map dedupKey).Nodup ∧
    List.Sorted fuseLE (retrieval_fuse wv wg limit vhits ghits) ∧
    (retrieval_fuse wv wg limit vhits ghits).Pairwise (fun a b => b.score ≤ a.score) := by
  have hfuse : retrieval_fuse wv wg limit vhits ghits =
      (List.insertionSort fuseLE
        ((((normalize_scores vhits).map fun h => h.identifier) ++
          ((normalize_scores ghits).map fun h => h.identifier)).dedup.map
            fun idt => mergedEntry wv wg idt (normalize_scores vhits)
              (normalize_scores ghits))).take limit := rfl
  rw [hfuse]
  have hnodupIds :
      ((((normalize_scores vhits).map fun h => h.identifier) ++
        ((normalize_scores ghits).map fun h => h.identifier)).dedup).Nodup :=
    List.nodup_dedup _
  have hmap :
      (((((normalize_scores vhits).map fun h => h.identifier) ++
        ((normalize_scores ghits).map fun h => h.identifier)).dedup.map
          fun idt => mergedEntry wv wg idt (normalize_scores vhits)
            (normalize_scores ghits)).map dedupKey) =
      (((normalize_scores vhits).map fun h => h.identifier) ++
        ((normalize_scores ghits).map fun h => h.identifier)).dedup := by
    rw [List.map_map]
    have h : (dedupKey ∘ fun idt => mergedEntry wv wg idt (normalize_scores vhits)
        (normalize_scores ghits)) = id := by
      funext idt
      exact dedupKey_mergedEntry wv wg idt _ _
    rw [h, List.map_id]
  have hnodupEntries :
      ((((normalize_scores vhits).map fun h => h.identifier) ++
        ((normalize_scores ghits).map fun h => h.identifier)).dedup.map
          fun idt => mergedEntry wv wg idt (normalize_scores vhits)
            (normalize_scores ghits)).map dedupKey |>.Nodup := by
    rw [hmap]
    exact hnodupIds
  have hperm := List.perm_insertionSort fuseLE
    ((((normalize_scores vhits).map fun h => h.identifier) ++
      ((normalize_scores ghits).map fun h => h.identifier)).dedup.map
        fun idt => mergedEntry wv wg idt (normalize_scores vhits) (normalize_scores ghits))
  have hnodupSorted := (hperm.map dedupKey).nodup_iff.mpr hnodupEntries
  have hsorted := List.sorted_insertionSort fuseLE
    ((((normalize_scores vhits).map fun h => h.identifier) ++
      ((normalize_scores ghits).map fun h => h.identifier)).dedup.map
        fun idt => mergedEntry wv wg idt (normalize_scores vhits) (normalize_scores ghits))
  have hsortedTake := List.Pairwise.sublist (List.take_sublist limit _) hsorted
  refine ⟨?_, hsortedTake, ?_⟩
  · exact List.Nodup.sublist ((List.take_sublist limit _).map dedupKey) hnodupSorted
  · refine hsortedTake.imp ?_
    intro a b hab
    rcases hab with h | ⟨h, _⟩
    · exact le_of_lt h
    · exact le_of_eq h.symm

/-- C3: evaluation of the code at the failing input.  A compatibility request
whose message list has no user role message raises the HTTP 400 of
convert_openai_to_internal, but the broad except of chat_completions catches
it and re-raises it as an HTTP 500 whose body is a detail string; the
rejection does happen before any session lookup or creation (sessionUsed is
none and sessionCreated is false). -/
theorem c3_no_user_message_yields_500 :
    chat_completions c3env c3req =
      ⟨.httpError 500 "400: No user message found in request", none, false, []⟩ := by
  rfl

/-- c4_counterexample: with a quota shaped upstream failure, the success
status body carries the generic failure message of execute_agent, which does
not contain the fixed cooldown apology; the two error tagged writes do
happen. -/
theorem c4_counterexample :
    chat_completions c4env c4req =
      ⟨.completion (create_openai_response "chatcmpl-cccc3333" 1700000002
          (generic_error_response quotaError) "session-fresh" "gpt-4o-mini" false),
        some "session-fresh", true,
        [⟨"session-fresh", "user", "What does Acme do?", metaErr quotaError⟩,
         ⟨"session-fresh", "assistant", generic_error_response quotaError,
           metaErr quotaError⟩]⟩ ∧
    strContains (generic_error_response quotaError) cooldown_message = false := by
  constructor
  · rfl
  · rfl

/-- C4 (amended): for every non-streaming compatibility request whose
upstream reasoning call fails, quota shaped or not, the caller receives a
success status response whose body carries the generic failure message
embedding the error text (not the fixed cooldown apology, whose branch is
unreachable for agent failures because execute_agent recovers them first),
and the conversation is persisted as two messages tagged with error
metadata. -/
theorem c4_quota_failure_generic_message (env : ChatEnv) (req : OpenAIChatRequestIn)
    (um : String) (uid : Option String) (stored : List StoredMsg) (e : String)
    (hconv : convert_openai_to_internal req = .ok (um, uid))
    (hstream : req.stream = false)
    (hcreate : env.session.createErr = none)
    (hstored : env.exec.stored = .ok stored)
    (hrun : env.exec.runResult = .error e)
    (hsched : env.exec.sched = fun _ => none) :
    (chat_completions env req).result =
      .completion (create_openai_response env.respId env.timestamp
        (generic_error_response e) env.session.freshId req.model false) ∧
    (chat_completions env req).writes =
      [⟨env.session.freshId, "user", um, metaErr e⟩,
       ⟨env.session.freshId, "assistant", generic_error_response e, metaErr e⟩] := by
  unfold chat_completions
  rw [hconv]
  unfold get_or_create_session
  simp only [hcreate, hstream]
  simp [execute_agent, hstored, hrun, hsched, execute_agent_recover,
    save_conversation_turn, add_message]

/-- c4_witness: the amended C4 statement applied at a concrete quota
failure. -/
theorem c4_witness :
    (chat_completions c4env c4req).result =
      .completion (create_openai_response c4env.respId c4env.timestamp
        (generic_error_response quotaError) c4env.session.freshId c4req.model false) ∧
    (chat_completions c4env c4req).writes =
      [⟨c4env.session.freshId, "user", "What does Acme do?", metaErr quotaError⟩,
       ⟨c4env.session.freshId, "assistant", generic_error_response quotaError,
         metaErr quotaError⟩] :=
  c4_quota_failure_generic_message c4env c4req "What does Acme do?" none [] quotaError
    rfl rfl rfl rfl rfl rfl

/-- c5_counterexample: when the first store write fails after the agent has
produced the answer, the returned result is the generic error message, not
the unchanged agent answer. -/
theorem c5_counterexample :
    (execute_agent ⟨.ok [], .ok ⟨"The answer is 42.", []⟩, c5sched⟩
        "What is the answer?" "sess-1" none true).result =
      .ok (generic_error_response "database connection lost", []) ∧
    (execute_agent ⟨.ok [], .ok ⟨"The answer is 42.", []⟩, c5sched⟩
        "What is the answer?" "sess-1" none true).result ≠
      .ok ("The answer is 42.", []) ∧
    (execute_agent ⟨.ok [], .ok ⟨"The answer is 42.", []⟩, c5sched⟩
        "What is the answer?" "sess-1" none true).writes =
      [⟨"sess-1", "user", "What is the answer?", metaErr "database connection lost"⟩,
       ⟨"sess-1", "assistant", generic_error_response "database connection lost",
         metaErr "database connection lost"⟩] := by
  refine ⟨rfl, ?_, rfl⟩
  intro hcontra
  have h2 := Except.ok.inj hcontra
  have h3 := congrArg Prod.fst h2
  exact absurd h3 (by decide)

/-- C5 (amended): if a conversation store write fails after the agent has
produced an answer in non-streaming mode, the broad except of execute_agent
catches it: the request still completes with a success result when the
retried error turn writes succeed, but the user visible answer is replaced by
the generic error message naming the write failure, and the persisted turn
carries error metadata instead of the agent answer. -/
theorem c5_write_failure_replaces_answer (stored : List StoredMsg) (r : AgentRunResult)
    (message sessionId : String) (userId : Option String) (e : String) (sched : WriteSched)
    (h0 : sched 0 = some e) (h1 : sched 1 = none) (h2 : sched 2 = none) :
    (execute_agent ⟨.ok stored, .ok r, sched⟩ message sessionId userId true).result =
      .ok (generic_error_response e, []) ∧
    (execute_agent ⟨.ok stored, .ok r, sched⟩ message sessionId userId true).writes =
      [⟨sessionId, "user", message, metaErr e⟩,
       ⟨sessionId, "assistant", generic_error_response e, metaErr e⟩] := by
  simp [execute_agent, execute_agent_recover, save_conversation_turn, add_message,
    h0, h1, h2]

/-- c5_witness: the amended C5 statement applied at a concrete failing
schedule. -/
theorem c5_witness :
    (execute_agent ⟨.ok [], .ok ⟨"The answer is 42.", []⟩, c5sched⟩
        "What is the answer?" "sess-1" none true).result =
      .ok (generic_error_response "database connection lost", []) ∧
    (execute_agent ⟨.ok [], .ok ⟨"The answer is 42.", []⟩, c5sched⟩
        "What is the answer?" "sess-1" none true).writes =
      [⟨"sess-1", "user", "What is the answer?", metaErr "database connection lost"⟩,
       ⟨"sess-1", "assistant", generic_error_response "database connection lost",
         metaErr "database connection lost"⟩] :=
  c5_write_failure_replaces_answer [] ⟨"The answer is 42.", []⟩
    "What is the answer?" "sess-1" none "database connection lost" c5sched rfl rfl rfl

/-- partsRecords: per message, the records produced are the mkToolCall image
of the tool call parts. -/
theorem partsRecords (parts : List MessagePart) :
    (parts.filterMap fun p =>
      match p with
      | .toolCallPart d => some (mkToolCall d)
      | .otherPart => none) =
    (parts.filterMap fun p =>
      match p with
      | .toolCallPart d => some d
      | .otherPart => none).map mkToolCall := by
  rw [List.map_filterMap]
  congr 1
  funext p
  cases p <;> rfl

/-- c6_counterexample: a two invocation trace whose second tool call fails to
decode still yields two records in order, the failing one with an empty
argument mapping; but the output records carry no decode error flag: the
trace with a decode failure and the trace with a genuinely empty argument
object are mapped to identical outputs. -/
theorem c6_counterexample :
    extract_tool_calls c6traceFail = extract_tool_calls c6traceEmpty ∧
    c6traceFail ≠ c6traceEmpty ∧
    extract_tool_calls c6traceFail =
      [⟨"vector_search", [("query", "acme")], some "call-1"⟩,
       ⟨"graph_search", [], some "call-2"⟩] := by
  refine ⟨rfl, ?_, rfl⟩
  decide

/-- C6 (amended): for every agent run trace, a failure to decode one tool
call's arguments does not drop the other tool calls: the tracker returns one
record per tool call part, in invocation order, and a part whose argument
string fails to decode (with no args_as_dict override) yields a record with
an empty argument mapping; no decode error flag exists on the record. -/
theorem c6_decode_failure_keeps_all_calls (msgs : List TraceMessage) :
    extract_tool_calls msgs = (toolCallPartsOf msgs).map mkToolCall ∧
    (extract_tool_calls msgs).length = (toolCallPartsOf msgs).length ∧
    ∀ d ∈ toolCallPartsOf msgs, d.args = .jsonStr none →
      (d.argsAsDict = none ∨ d.argsAsDict = some none) →
      mkToolCall d = ⟨d.toolName.getD "unknown", [], d.toolCallId⟩ := by
  have hmain : extract_tool_calls msgs = (toolCallPartsOf msgs).map mkToolCall := by
    unfold extract_tool_calls toolCallPartsOf
    induction msgs with
    | nil => rfl
    | cons m t ih =>
      simp only [List.map_cons, List.flatten_cons, List.map_append, ih]
      congr 1
      cases m.parts with
      | none => rfl
      | some parts => exact partsRecords parts
  refine ⟨hmain, ?_, ?_⟩
  · rw [hmain, List.length_map]
  · intro d _ h1 h2
    rcases h2 with h2 | h2 <;> simp [mkToolCall, decodeToolArgs, h1, h2]

/-- c6_witness: the amended C6 statement applied at the concrete failing
part of the counterexample trace. -/
theorem c6_witness :
    mkToolCall c6partFail = ⟨"graph_search", [], some "call-2"⟩ :=
  (c6_decode_failure_keeps_all_calls c6traceFail).2.2 c6partFail
    (by decide) (by decide) (Or.inl (by decide))

/-- c7_counterexample: with seven prior messages, the prompt the code builds
differs from the prompt the spec describes (all assembler output rendered),
because the code renders only the last six messages. -/
theorem c7_counterexample :
    build_full_prompt c7context "next" ≠ spec_working_prompt c7context "next" := by
  decide

theorem takeLast_eq_most_recent (n : Nat) (l : List α) :
    takeLast n l = most_recent n l := by
  unfold takeLast most_recent
  rw [List.take_reverse, List.reverse_reverse]

/-- C7 (amended): whenever prior conversation context exists, the working
prompt fed to the agent is exactly the fixed header, followed by the most
recent six messages of the assembler output (the assembler retrieves up to
ten), oldest first, each rendered as a role: content line, followed by the
new question under the fixed label. -/
theorem c7_prompt_uses_last_six (stored : List StoredMsg) (message : String)
    (h : get_conversation_context stored 10 ≠ []) :
    build_full_prompt (get_conversation_context stored 10) message =
      spec_working_prompt_recent 6 (get_conversation_context stored 10) message := by
  unfold build_full_prompt spec_working_prompt_recent contextLines
  rw [takeLast_eq_most_recent]
  simp [h]

/-- c7_witness: the amended C7 statement applied at a concrete seven message
session log. -/
theorem c7_witness :
    build_full_prompt (get_conversation_context c7stored 10) "next" =
      spec_working_prompt_recent 6 (get_conversation_context c7stored 10) "next" :=
  c7_prompt_uses_last_six c7stored "next" (by decide)

/-- C10: every compatibility chat completion request that passes conversion
runs under a brand new session: the internal request is built with a null
session id, so the resolved session is the freshly created one, never an
existing session, whatever history or user identifier the caller supplied. -/
theorem c10_compat_always_creates_new_session (env : ChatEnv) (req : OpenAIChatRequestIn)
    (um : String) (uid : Option String)
    (hconv : convert_openai_to_internal req = .ok (um, uid))
    (hcreate : env.session.createErr = none) :
    (chat_completions env req).sessionUsed = some env.session.freshId ∧
    (chat_completions env req).sessionCreated = true := by
  unfold chat_completions
  rw [hconv]
  unfold get_or_create_session
  simp only [hcreate]
  cases hs : req.stream with
  | true => simp
  | false =>
    cases hres : (execute_agent env.exec um env.session.freshId uid true).result with
    | ok p =>
      obtain ⟨resp, tools⟩ := p
      simp [hres]
    | error e => simp [hres]

/-- c10_witness: the C10 statement applied at a concrete request that
supplies history and a user identifier, against an environment holding an
existing session. -/
theorem c10_witness :
    (chat_completions c10env c10req).sessionUsed = some "session-new" ∧
    (chat_completions c10env c10req).sessionCreated = true :=
  c10_compat_always_creates_new_session c10env c10req "Continue our chat" (some "user-7")
    rfl rfl

end LocalRag
